import Mathlib

/-!
Verification development for the `aibot` resume/cold-email generator
(`resume_generator.py`).  The definitions below are a shallow embedding of
the program's cache layer, AI gateway, link extraction, job-link processing
and filename derivation; theorems settle the specification claims.
-/

set_option maxRecDepth 40000

namespace Aibot

/-! ### MD5 (modelling Python's `hashlib.md5` over byte lists)

`generate_cache_key` in the source is `hashlib.md5(text.encode()).hexdigest()`.
We embed MD5 faithfully: padding, little-endian word assembly, the 64 rounds
with the standard constant tables, and the little-endian hex digest.
Machine words are `Nat` reduced mod 2^32 at every assignment. -/

def md5K : List Nat := [3614090360, 3905402710, 606105819, 3250441966, 4118548399, 1200080426, 2821735955, 4249261313, 1770035416, 2336552879, 4294925233, 2304563134, 1804603682, 4254626195, 2792965006, 1236535329, 4129170786, 3225465664, 643717713, 3921069994, 3593408605, 38016083, 3634488961, 3889429448, 568446438, 3275163606, 4107603335, 1163531501, 2850285829, 4243563512, 1735328473, 2368359562, 4294588738, 2272392833, 1839030562, 4259657740, 2763975236, 1272893353, 4139469664, 3200236656, 681279174, 3936430074, 3572445317, 76029189, 3654602809, 3873151461, 530742520, 3299628645, 4096336452, 1126891415, 2878612391, 4237533241, 1700485571, 2399980690, 4293915773, 2240044497, 1873313359, 4264355552, 2734768916, 1309151649, 4149444226, 3174756917, 718787259, 3951481745]

def md5S : List Nat := [7, 12, 17, 22, 7, 12, 17, 22, 7, 12, 17, 22, 7, 12, 17, 22, 5, 9, 14, 20, 5, 9, 14, 20, 5, 9, 14, 20, 5, 9, 14, 20, 4, 11, 16, 23, 4, 11, 16, 23, 4, 11, 16, 23, 4, 11, 16, 23, 6, 10, 15, 21, 6, 10, 15, 21, 6, 10, 15, 21, 6, 10, 15, 21]

def rotl32 (x s : Nat) : Nat := ((x <<< s) ||| (x >>> (32 - s))) % 4294967296

def md5F (i B C D : Nat) : Nat :=
  if i < 16 then (B &&& C) ||| ((B ^^^ 4294967295) &&& D)
  else if i < 32 then (D &&& B) ||| ((D ^^^ 4294967295) &&& C)
  else if i < 48 then B ^^^ C ^^^ D
  else C ^^^ (B ||| (D ^^^ 4294967295))

def md5G (i : Nat) : Nat :=
  if i < 16 then i
  else if i < 32 then (5 * i + 1) % 16
  else if i < 48 then (3 * i + 5) % 16
  else (7 * i) % 16

def md5Word (chunk : List Nat) (j : Nat) : Nat :=
  chunk.getD (4 * j) 0 + 256 * chunk.getD (4 * j + 1) 0 +
    65536 * chunk.getD (4 * j + 2) 0 + 16777216 * chunk.getD (4 * j + 3) 0

def md5Step (chunk : List Nat) (st : Nat × Nat × Nat × Nat) (i : Nat) :
    Nat × Nat × Nat × Nat :=
  match st with
  | (A, B, C, D) =>
    let Fv := (md5F i B C D + A + md5K.getD i 0 + md5Word chunk (md5G i)) % 4294967296
    (D, (B + rotl32 Fv (md5S.getD i 0)) % 4294967296, B, C)

def md5Chunk (st : Nat × Nat × Nat × Nat) (chunk : List Nat) : Nat × Nat × Nat × Nat :=
  match st with
  | (a0, b0, c0, d0) =>
    match (List.range 64).foldl (md5Step chunk) (a0, b0, c0, d0) with
    | (A, B, C, D) =>
      ((a0 + A) % 4294967296, (b0 + B) % 4294967296,
       (c0 + C) % 4294967296, (d0 + D) % 4294967296)

def chunksGo : Nat → List Nat → List (List Nat)
  | 0, _ => []
  | _, [] => []
  | fuel + 1, l => l.take 64 :: chunksGo fuel (l.drop 64)

def md5Pad (msg : List Nat) : List Nat :=
  let r := (msg.length + 1) % 64
  msg ++ 128 :: List.replicate ((120 - r) % 64) 0 ++
    (List.range 8).map (fun i => ((msg.length * 8) >>> (8 * i)) % 256)

def wordLE (w : Nat) : List Nat := [w % 256, w / 256 % 256, w / 65536 % 256, w / 16777216 % 256]

def md5Bytes (msg : List Nat) : List Nat :=
  let padded := md5Pad msg
  let st := (chunksGo padded.length padded).foldl md5Chunk
    (1732584193, 4023233417, 2562383102, 271733878)
  wordLE st.1 ++ wordLE st.2.1 ++ wordLE st.2.2.1 ++ wordLE st.2.2.2

def hexDigit (n : Nat) : Char :=
  if n < 10 then Char.ofNat (48 + n) else Char.ofNat (87 + n)

def toHexChars : List Nat → List Char
  | [] => []
  | b :: bs => hexDigit (b / 16 % 16) :: hexDigit (b % 16) :: toHexChars bs

/-- UTF-8 encoding of one scalar value, as produced by Python `str.encode()`. -/
def utf8Char (c : Char) : List Nat :=
  let n := c.toNat
  if n < 128 then [n]
  else if n < 2048 then [192 + n / 64, 128 + n % 64]
  else if n < 65536 then [224 + n / 4096, 128 + n / 64 % 64, 128 + n % 64]
  else [240 + n / 262144, 128 + n / 4096 % 64, 128 + n / 64 % 64, 128 + n % 64]

def utf8Bytes (s : String) : List Nat := s.data.flatMap utf8Char

/-- `generate_cache_key(text)` (source line 41-43):
`hashlib.md5(text.encode()).hexdigest()`. -/
def generate_cache_key (text : String) : String :=
  String.mk (toHexChars (md5Bytes (utf8Bytes text)))

/-! ### Response cache (`st.session_state.job_cache`)

The Python cache is a dict from composite string keys
`f"{cache_type}_{cache_key}"` to `{'response': ..., 'timestamp': ...}`.
We model it as an association list where an insert conses in front (the
most recent binding shadows older ones, matching dict overwrite for reads).
The globals `use_cache` / `api_key_input` / `ai_model_choice` become
explicit parameters carried in an environment. -/

structure CacheEntry where
  resp : String
  timestamp : String
deriving DecidableEq

abbrev Cache : Type := List (String × CacheEntry)

/-- `get_cached_response(cache_key, cache_type)` (source lines 45-50):
returns `None` when caching is disabled, else `job_cache.get(f"{cache_type}_{cache_key}")`. -/
def get_cached_response (useCache : Bool) (cache : Cache) (cacheKey : String)
    (cacheType : String) : Option CacheEntry :=
  if useCache then List.lookup (cacheType ++ "_" ++ cacheKey) cache else none

/-- `set_cached_response(cache_key, response, cache_type)` (source lines 52-59):
stores `{'response': response, 'timestamp': datetime.now().isoformat()}` under
`f"{cache_type}_{cache_key}"` when caching is enabled. -/
def set_cached_response (useCache : Bool) (cache : Cache) (cacheKey : String)
    (response : String) (cacheType : String) (now : String) : Cache :=
  if useCache then
    ((cacheType ++ "_" ++ cacheKey, ⟨response, now⟩) :: cache : List (String × CacheEntry))
  else cache

/-! ### AI gateway (`call_ai_api`)

The two SDK backends are oracles in the environment.  An OpenAI call either
raises or yields the message content; a Gemini call either raises, or yields
a response whose `.text` accessor is `none` (the SDK then raises a
`ValueError` whose message we carry in the environment) or some text. -/

/-- Python `s.startswith(pre)`, expressed over the character lists so that
it evaluates by kernel reduction. -/
def pyStartsWith (s pre : String) : Bool := pre.data.isPrefixOf s.data

inductive ORes where
  | raised (msg : String)
  | resp (text : String)
deriving DecidableEq

inductive GRes where
  | raised (msg : String)
  | resp (text? : Option String)
deriving DecidableEq

structure Env where
  apiKeyInput : String
  aiModelChoice : String
  useCache : Bool
  openai : String → String → ORes
  gemini : String → GRes
  noTextMsg : String
  now : String
  fetch : String → Except String String

/-- Outcome of one `call_ai_api` invocation: the returned value, whether the
LLM backend was invoked, the `st.error` message (if any), and the cache
afterwards. -/
structure CallOut where
  result : Option String
  backendCalled : Bool
  errMsg : Option String
  cache : Cache
deriving DecidableEq

/-- `call_ai_api(prompt, model_type)` (source lines 61-91): look up the cache
under the composite key; on a hit return the cached response without touching
a backend; on a miss dispatch on the credential shape (`sk-` means OpenAI,
anything else Gemini), store a successful result, and catch any exception,
reporting it via `st.error` and returning `None`. -/
def call_ai_api (env : Env) (prompt : String) (modelType : String) (cache : Cache) : CallOut :=
  let cacheKey := generate_cache_key prompt
  match get_cached_response env.useCache cache cacheKey modelType with
  | some cached => { result := some cached.resp, backendCalled := false, errMsg := none, cache := cache }
  | none =>
    if pyStartsWith env.apiKeyInput "sk-" then
      match env.openai env.aiModelChoice prompt with
      | .raised m =>
          { result := none, backendCalled := true,
            errMsg := some ("AI API Error: " ++ m), cache := cache }
      | .resp t =>
          { result := some t, backendCalled := true, errMsg := none,
            cache := set_cached_response env.useCache cache cacheKey t modelType env.now }
    else
      match env.gemini prompt with
      | .raised m =>
          { result := none, backendCalled := true,
            errMsg := some ("AI API Error: " ++ m), cache := cache }
      | .resp none =>
          { result := none, backendCalled := true,
            errMsg := some ("AI API Error: " ++ env.noTextMsg), cache := cache }
      | .resp (some t) =>
          { result := some t, backendCalled := true, errMsg := none,
            cache := set_cached_response env.useCache cache cacheKey t modelType env.now }

/-- Concrete Gemini-backed environment used for the C1 witness. -/
def envHello : Env :=
  { apiKeyInput := "gm-key", aiModelChoice := "gpt-4", useCache := true,
    openai := fun _ _ => .raised "off", gemini := fun _ => .resp (some "hello"),
    noTextMsg := "no text", now := "t0", fetch := fun _ => .error "down" }

/-- The two 72-character ASCII strings of M. Stevens' MD5 text collision;
they differ in one character yet share the digest
`faad49866e9498fc1719f5289e7a0269`. -/
def collA : String := "TEXTCOLLBYfGiJUETHQ4hAcKSMd5zYpgqf1YRDhkmxHkhPWptrkoyz28wnI9V0aHeAuaKnak"

def collB : String := "TEXTCOLLBYfGiJUETHQ4hEcKSMd5zYpgqf1YRDhkmxHkhPWptrkoyz28wnI9V0aHeAuaKnak"

/-- A Gemini-path environment whose provider call raises (network/provider
error class). -/
def envNetErr : Env :=
  { apiKeyInput := "gm-key", aiModelChoice := "gpt-4", useCache := true,
    openai := fun _ _ => .raised "off",
    gemini := fun _ => .raised "503 Service Unavailable",
    noTextMsg := "response contains no valid Part", now := "t0",
    fetch := fun _ => .error "down" }

/-- The same environment except the provider returns a malformed response:
a reply whose text accessor has no text payload. -/
def envNoText : Env :=
  { apiKeyInput := "gm-key", aiModelChoice := "gpt-4", useCache := true,
    openai := fun _ _ => .raised "off",
    gemini := fun _ => .resp none,
    noTextMsg := "response contains no valid Part", now := "t0",
    fetch := fun _ => .error "down" }

/-! ### Python string helpers used by the parsing and filename code -/

/-- Python `str.lower()` on the ASCII range (the only range the scanned
field tags and filename bases exercise). -/
def pyLowerChar (c : Char) : Char :=
  if h : 65 ≤ c.toNat ∧ c.toNat ≤ 90 then
    ⟨UInt32.ofNat' (c.toNat + 32) (Char.isValidUInt32 _ (Or.inl (by omega))),
     Char.isValidChar_of_isValidCharNat _ (Or.inl (by omega))⟩
  else c

def pyLower (s : String) : String := String.mk (s.data.map pyLowerChar)

/-- Python `str.replace(' ', '_')`: every space becomes an underscore. -/
def pyReplaceSpace (s : String) : String :=
  String.mk (s.data.map fun c => if c = ' ' then '_' else c)

/-- Whitespace stripped by Python `str.strip()` (ASCII whitespace). -/
def pySpace (c : Char) : Bool :=
  c = ' ' || c = '\t' || c = '\n' || c = '\r' || c = '\x0b' || c = '\x0c'

def pyStrip (s : String) : String :=
  String.mk (((s.data.dropWhile pySpace).reverse.dropWhile pySpace).reverse)

/-- Python `str.splitlines()` on the `\n`, `\r\n` and `\r` boundaries. -/
def splitLinesAux : List Char → List Char → List (List Char)
  | [], acc => [acc.reverse]
  | '\r' :: '\n' :: rest, acc =>
      acc.reverse :: (if rest.isEmpty then [] else splitLinesAux rest [])
  | '\n' :: rest, acc =>
      acc.reverse :: (if rest.isEmpty then [] else splitLinesAux rest [])
  | '\r' :: rest, acc =>
      acc.reverse :: (if rest.isEmpty then [] else splitLinesAux rest [])
  | c :: rest, acc => splitLinesAux rest (c :: acc)

def pySplitlines (s : String) : List String :=
  if s.data.isEmpty then [] else (splitLinesAux s.data []).map String.mk

/-- Python `s[:n]` (slicing counts code points). -/
def pyTake (n : Nat) (s : String) : String := String.mk (s.data.take n)

/-- Python `line.split(":", 1)[1]` on a line that contains a colon:
everything after the first colon. -/
def afterColon (line : String) : String :=
  String.mk ((line.data.dropWhile fun c => c ≠ ':').drop 1)

/-- Python `sep.join(parts)`. -/
def joinSep (sep : String) : List String → String
  | [] => ""
  | [x] => x
  | x :: y :: xs => x ++ sep ++ joinSep sep (y :: xs)

/-! ### Field parsing inside `process_job_link` (source lines 161-165) -/

/-- `next((line.split(":", 1)[1].strip() for line in lines if
line.lower().startswith(tag)), default)` without its default: the first
line whose lowercased form starts with `tag`, stripped after the colon. -/
def findField (lines : List String) (tag : String) : Option String :=
  lines.findSome? fun line =>
    if pyStartsWith (pyLower line) tag then some (pyStrip (afterColon line)) else none

def parsed_title (resp : String) (index : Nat) : String :=
  (findField (pySplitlines resp) "job title:").getD ("Job " ++ toString (index + 1))

def parsed_company (resp : String) : String :=
  (findField (pySplitlines resp) "company:").getD "Unknown Company"

def parsed_location (resp : String) : String :=
  (findField (pySplitlines resp) "location:").getD ""

/-! ### `process_job_link` and the batch loop -/

structure JobRecord where
  display_name : String
  link : String
  title : String
  company : String
  location : String
  raw_text : String
deriving DecidableEq

/-- The `except` branch of `process_job_link` (source lines 183-192). -/
def degraded_record (link : String) (index : Nat) : JobRecord :=
  { display_name := "Job " ++ toString (index + 1) ++ " - Failed to Load Details",
    link := link, title := "Job " ++ toString (index + 1),
    company := "Unknown", location := "", raw_text := "" }

/-- The extraction prompt (source lines 146-155), with the page text
truncated to its first 3000 characters. -/
def ai_summary_prompt (pageText : String) : String :=
  "\nExtract job information from this LinkedIn job page text. Provide ONLY:\nJob Title: <exact title>\nCompany: <company name>\nLocation: <location if available>\nEmployment Type: <full-time/part-time/contract if mentioned>\n\nText (first 3000 characters):\n"
    ++ pyTake 3000 pageText ++ "\n"

/-- `process_job_link(link, index)` (source lines 137-192).  The page fetch
(`requests.get` + `raise_for_status` + soup text extraction) is the oracle
`env.fetch`; any exception it raises lands in the `except` branch producing
the degraded record.  A `None` or empty AI response returns `None`
(`if not ai_response`). -/
def process_job_link (env : Env) (link : String) (index : Nat) (cache : Cache) :
    Option JobRecord × Cache :=
  match env.fetch link with
  | .error _ => (some (degraded_record link index), cache)
  | .ok pageText =>
    let out := call_ai_api env (ai_summary_prompt pageText) "job_summary" cache
    match out.result with
    | none => (none, out.cache)
    | some aiResponse =>
      if aiResponse = "" then (none, out.cache)
      else
        let title := parsed_title aiResponse index
        let company := parsed_company aiResponse
        let location := parsed_location aiResponse
        let displayParts := [title, company] ++ (if location ≠ "" then [location] else [])
        (some { display_name :=
                  joinSep " | " displayParts ++ " (#" ++ toString (index + 1) ++ ")",
                link := link, title := title, company := company, location := location,
                raw_text := pyTake 8000 pageText }, out.cache)

/-- The batch loop over job links (source lines 236-244): process each link
in order with its index, append the record when one is returned, and keep
going regardless of individual outcomes. -/
def processLinks (env : Env) : List String → Nat → Cache → List JobRecord × Cache
  | [], _, c => ([], c)
  | l :: rest, i, c =>
    let rc := process_job_link env l i c
    let rs := processLinks env rest (i + 1) rc.2
    (match rc.1 with | some j => j :: rs.1 | none => rs.1, rs.2)

/-! ### `extract_linkedin_jobs` (source lines 93-107) -/

/-- Python substring test `needle in hay`. -/
def containsSub (needle : List Char) : List Char → Bool
  | [] => needle.isEmpty
  | c :: rest => needle.isPrefixOf (c :: rest) || containsSub needle rest

/-- `re.search(r'/jobs/view/(\d+)', href)`: the leftmost position where the
literal `/jobs/view/` is followed by at least one digit; the group is the
maximal digit run there. -/
def findJobId : List Char → Option (List Char)
  | [] => none
  | c :: rest =>
    if ("/jobs/view/").data.isPrefixOf (c :: rest) then
      let ds := ((c :: rest).drop 11).takeWhile Char.isDigit
      if ds.isEmpty then findJobId rest else some ds
    else findJobId rest

/-- `list(set(...))` loses order in Python; any deduplication refines it.
We keep first occurrences. -/
def dedupAux (seen : List String) : List String → List String
  | [] => []
  | x :: xs => if x ∈ seen then dedupAux seen xs else x :: dedupAux (x :: seen) xs

/-- `extract_linkedin_jobs(html_content)` with the anchor hrefs already
scanned out of the HTML by BeautifulSoup (an external collaborator) and the
`max_jobs_to_process` slider value passed explicitly. -/
def extract_linkedin_jobs (hrefs : List String) (maxJobs : Nat) : List String :=
  let jobLinks := hrefs.filterMap fun href =>
    if containsSub ("linkedin.com/jobs/view").data href.data then
      match findJobId href.data with
      | some ds => some ("https://www.linkedin.com/jobs/view/" ++ String.mk ds)
      | none => none
    else none
  (dedupAux [] jobLinks).take maxJobs

/-! ### Download filenames -/

/-- `f"resume_{name.replace(' ', '_').lower()}.md"` (source line 488). -/
def resume_filename_md (name : String) : String :=
  "resume_" ++ pyLower (pyReplaceSpace name) ++ ".md"

/-- `f"resume_{name.replace(' ', '_').lower()}.txt"` (source line 501). -/
def resume_filename_txt (name : String) : String :=
  "resume_" ++ pyLower (pyReplaceSpace name) ++ ".txt"

/-- `f"cold_email_{company.replace(' ', '_').lower()}.txt"` (source line 620). -/
def email_filename (company : String) : String :=
  "cold_email_" ++ pyLower (pyReplaceSpace company) ++ ".txt"

/-- `f"resume_{selected_item['candidate_name']}.md"` (source line 300):
the history re-download uses the stored name verbatim. -/
def history_resume_filename (candidateName : String) : String :=
  "resume_" ++ candidateName ++ ".md"

/-- `f"cold_email_{selected_email_item['sender_name']}.txt"` (source line 318). -/
def history_email_filename (senderName : String) : String :=
  "cold_email_" ++ senderName ++ ".txt"

/-- Concrete environment whose page fetches always fail. -/
def envFetchFail : Env :=
  { apiKeyInput := "gm-key", aiModelChoice := "gpt-4", useCache := true,
    openai := fun _ _ => .raised "off", gemini := fun _ => .resp (some "ok"),
    noTextMsg := "no part", now := "t0",
    fetch := fun _ => .error "404 Client Error" }

/-- Concrete environment: fetch succeeds, the Gemini call raises. -/
def envAIFail : Env :=
  { apiKeyInput := "gm-key", aiModelChoice := "gpt-4", useCache := true,
    openai := fun _ _ => .raised "off", gemini := fun _ => .raised "quota",
    noTextMsg := "no part", now := "t0",
    fetch := fun _ => .ok "some page text" }

/-! ### Sequences of gateway calls, for the cache-advisory claim -/

/-- A sequential run of `call_ai_api` invocations threading the cache:
the list of returned values and the final cache. -/
def runCalls (env : Env) : List (String × String) → Cache → List (Option String) × Cache
  | [], c => ([], c)
  | (p, k) :: rest, c =>
    let out := call_ai_api env p k c
    let rs := runCalls env rest out.cache
    (out.result :: rs.1, rs.2)

/-- What the backend dispatch inside `call_ai_api` yields on a cache miss. -/
def backendResult (env : Env) (p : String) : Option String :=
  if pyStartsWith env.apiKeyInput "sk-" then
    match env.openai env.aiModelChoice p with
    | .raised _ => none
    | .resp t => some t
  else
    match env.gemini p with
    | .raised _ => none
    | .resp none => none
    | .resp (some t) => some t

/-- Every cache entry records a successful backend reply for some prompt
and kind of the run. -/
def CacheConsistent (env : Env) (L : List (String × String)) (c : Cache) : Prop :=
  ∀ fk e, List.lookup fk c = some e →
    ∃ p k, (p, k) ∈ L ∧ fk = k ++ "_" ++ generate_cache_key p ∧
      backendResult env p = some e.resp

/-- Deterministic Gemini backend that answers "A" for `collA` and "B" for
everything else. -/
def envColl : Env :=
  { apiKeyInput := "gm-key", aiModelChoice := "gpt-4", useCache := true,
    openai := fun _ _ => .raised "off",
    gemini := fun p => .resp (some (if p = collA then "A" else "B")),
    noTextMsg := "no part", now := "t0", fetch := fun _ => .error "down" }

/-! ### Theorems -/

example : generate_cache_key "" = "d41d8cd98f00b204e9800998ecf8427e" := by decide

example : generate_cache_key "abc" = "900150983cd24fb0d6963f7d28e17f72" := by decide

example :
    generate_cache_key
        "TEXTCOLLBYfGiJUETHQ4hAcKSMd5zYpgqf1YRDhkmxHkhPWptrkoyz28wnI9V0aHeAuaKnak" =
      "faad49866e9498fc1719f5289e7a0269" := by decide

lemma data_append (a b : String) : (a ++ b).data = a.data ++ b.data := rfl

lemma lookup_cons_self (fk : String) (e : CacheEntry) (c : Cache) :
    List.lookup fk ((fk, e) :: c) = some e := by
  simp [List.lookup]

lemma lookup_cons_ne (a b : String) (e : CacheEntry) (c : Cache) (h : a ≠ b) :
    List.lookup a ((b, e) :: c) = List.lookup a c := by
  rw [List.lookup]
  simp [beq_eq_false_iff_ne.mpr h]

/-- Keys built from the two distinct call kinds can never coincide,
whatever the hashes are: the first character already differs. -/
lemma job_summary_resume_key_ne (h1 h2 : String) :
    ("job_summary" ++ "_" ++ h1) ≠ ("resume_generation" ++ "_" ++ h2) := by
  intro heq
  have hd := congrArg (fun s : String => s.data.head?) heq
  simp only [data_append] at hd
  simp [show ("job_summary" : String).data = 'j' :: "ob_summary".data from rfl,
        show ("resume_generation" : String).data = 'r' :: "esume_generation".data from rfl] at hd

/-- The first call either hits the cache (cache unchanged) or, on a
successful backend reply `t`, stores `t`; in both cases, with caching on,
the composite key afterwards resolves to the returned text. -/
lemma call_stores_result (env : Env) (p k : String) (c : Cache) (t : String)
    (hcache : env.useCache = true)
    (h1 : (call_ai_api env p k c).result = some t) :
    List.lookup (k ++ "_" ++ generate_cache_key p)
        ((call_ai_api env p k c).cache) = some ⟨t, env.now⟩ ∨
    (∃ e : CacheEntry, e.resp = t ∧
      List.lookup (k ++ "_" ++ generate_cache_key p)
        ((call_ai_api env p k c).cache) = some e) := by
  cases hget : get_cached_response true c (generate_cache_key p) k with
  | some e =>
      right
      have hres : e.resp = t := by simpa [call_ai_api, hcache, hget] using h1
      have hc : (call_ai_api env p k c).cache = c := by simp [call_ai_api, hcache, hget]
      have hlk : List.lookup (k ++ "_" ++ generate_cache_key p) c = some e := by
        rw [get_cached_response] at hget
        simpa using hget
      exact ⟨e, hres, by rw [hc]; exact hlk⟩
  | none =>
      left
      by_cases hsk : pyStartsWith env.apiKeyInput "sk-"
      · cases ho : env.openai env.aiModelChoice p with
        | raised m => simp [call_ai_api, hcache, hget, hsk, ho] at h1
        | resp t' =>
            have ht' : t' = t := by simpa [call_ai_api, hcache, hget, hsk, ho] using h1
            have hc : (call_ai_api env p k c).cache =
                (k ++ "_" ++ generate_cache_key p, ⟨t, env.now⟩) :: c := by
              simp [call_ai_api, hcache, hget, hsk, ho, set_cached_response, ht']
            rw [hc, lookup_cons_self]
      · cases hg : env.gemini p with
        | raised m => simp [call_ai_api, hcache, hget, hsk, hg] at h1
        | resp t? =>
            cases t? with
            | none => simp [call_ai_api, hcache, hget, hsk, hg] at h1
            | some t' =>
                have ht' : t' = t := by simpa [call_ai_api, hcache, hget, hsk, hg] using h1
                have hc : (call_ai_api env p k c).cache =
                    (k ++ "_" ++ generate_cache_key p, ⟨t, env.now⟩) :: c := by
                  simp [call_ai_api, hcache, hget, hsk, hg, set_cached_response, ht']
                rw [hc, lookup_cons_self]

/-- C1: Idempotence of the cached generate call.  With caching enabled, if a
first invocation of `call_ai_api(p, k)` returned text `t`, then a second
invocation with the same prompt and kind, run on the cache left by the first,
returns exactly `t` and does not invoke the LLM backend. -/
theorem cached_call_idempotent (env : Env) (p k : String) (c : Cache) (t : String)
    (hcache : env.useCache = true)
    (h1 : (call_ai_api env p k c).result = some t) :
    (call_ai_api env p k (call_ai_api env p k c).cache).result = some t ∧
    (call_ai_api env p k (call_ai_api env p k c).cache).backendCalled = false := by
  have hstored := call_stores_result env p k c t hcache h1
  have hhit : ∃ e : CacheEntry, e.resp = t ∧
      List.lookup (k ++ "_" ++ generate_cache_key p) ((call_ai_api env p k c).cache) = some e := by
    rcases hstored with h | h
    · exact ⟨⟨t, env.now⟩, rfl, h⟩
    · exact h
  rcases hhit with ⟨e, he, hlk⟩
  have hget2 : get_cached_response env.useCache ((call_ai_api env p k c).cache)
      (generate_cache_key p) k = some e := by
    rw [get_cached_response, hcache]
    simpa using hlk
  generalize hc2 : (call_ai_api env p k c).cache = c2 at hget2 ⊢
  constructor <;> simp [call_ai_api, hget2, he]

/-- C1 witness: with the concrete environment, the first call returns
"hello", and the second call returns it again from the cache without
invoking the backend. -/
theorem cached_call_idempotent_witness :
    (call_ai_api envHello "p" "job_summary"
        ((call_ai_api envHello "p" "job_summary" []).cache)).result = some "hello" ∧
    (call_ai_api envHello "p" "job_summary"
        ((call_ai_api envHello "p" "job_summary" []).cache)).backendCalled = false :=
  cached_call_idempotent envHello "p" "job_summary" [] "hello" rfl (by decide)

/-- C2: Cache isolation across call kinds.  A store under kind `job_summary`
is invisible to lookups under kind `resume_generation` (whether or not
caching is enabled), because the composite keys `f"{cache_type}_{hash}"`
never coincide for these two kinds. -/
theorem cache_kind_isolation :
    (∀ (uc : Bool) (c : Cache) (k1 v now k2 : String),
        get_cached_response uc (set_cached_response uc c k1 v "job_summary" now) k2
            "resume_generation" =
          get_cached_response uc c k2 "resume_generation") ∧
    (∀ h1 h2 : String, ("job_summary" ++ "_" ++ h1) ≠ ("resume_generation" ++ "_" ++ h2)) := by
  refine ⟨?_, job_summary_resume_key_ne⟩
  intro uc c k1 v now k2
  cases uc with
  | false => simp [get_cached_response, set_cached_response]
  | true =>
      rw [get_cached_response, get_cached_response, set_cached_response]
      simp only [if_true]
      exact lookup_cons_ne _ _ _ _
        (fun h => job_summary_resume_key_ne k1 k2 h.symm)

lemma toHexChars_length (l : List Nat) : (toHexChars l).length = 2 * l.length := by
  induction l with
  | nil => rfl
  | cons b bs ih => simp [toHexChars, ih]; omega

lemma md5Bytes_length (msg : List Nat) : (md5Bytes msg).length = 16 := by
  simp [md5Bytes, wordLE]

/-- Every cache key is a 32-character hex digest. -/
lemma cache_key_length (t : String) : (generate_cache_key t).length = 32 := by
  show (toHexChars (md5Bytes (utf8Bytes t))).length = 32
  rw [toHexChars_length, md5Bytes_length]

/-- C3 counterexample: `generate_cache_key` is not injective — these two
distinct prompt strings produce the same key, so `key(t1) == key(t2)` does
not imply `t1 == t2`. -/
theorem cache_key_collision_cex :
    collA ≠ collB ∧ generate_cache_key collA = generate_cache_key collB := by
  constructor
  · decide
  · decide

/-- C3 amended: key derivation is a pure deterministic function of the text
(no per-process salt: byte-identical strings always yield the same
32-character key), but distinct strings do not always yield distinct keys —
MD5 collisions exist. -/
theorem cache_key_deterministic :
    (∀ t1 t2 : String, t1 = t2 → generate_cache_key t1 = generate_cache_key t2) ∧
    (∀ t : String, (generate_cache_key t).length = 32) ∧
    (∃ t1 t2 : String, t1 ≠ t2 ∧ generate_cache_key t1 = generate_cache_key t2) := by
  refine ⟨fun t1 t2 h => by rw [h], cache_key_length, collA, collB, ?_, ?_⟩
  · decide
  · decide

/-- C3 witness for the amended theorem at concrete inputs. -/
theorem cache_key_deterministic_witness :
    generate_cache_key "p" = generate_cache_key "p" ∧
    (generate_cache_key "p").length = 32 :=
  ⟨cache_key_deterministic.1 "p" "p" rfl,
   cache_key_deterministic.2.1 "p"⟩

/-- C4 counterexample: a network/provider error and a malformed (non-text)
response — two of the three failure classes the claim says are
distinguishable — give the caller the *same* returned outcome `none`; the
caller cannot tell them apart from the return value.  (The third class, a
missing credential, never reaches `call_ai_api` at all: the sidebar guard
stops the app first.) -/
theorem failure_classes_conflated_cex :
    (call_ai_api envNetErr "p" "job_summary" []).result = none ∧
    (call_ai_api envNoText "p" "job_summary" []).result = none ∧
    (call_ai_api envNetErr "p" "job_summary" []).result =
      (call_ai_api envNoText "p" "job_summary" []).result := by
  refine ⟨?_, ?_, ?_⟩ <;> decide

/-- C4 amended: on a cache miss on the Gemini path, `call_ai_api` never
throws: a provider error yields `None` plus an `st.error` message, a
non-text payload also yields `None` plus an `st.error` message (the two are
not distinguishable from the returned value), an empty-text reply is
returned as `""` — an outcome distinct from the error outcome `None`. -/
theorem call_failure_reporting (env : Env) (p k : String) (c : Cache) (m : String)
    (hmiss : get_cached_response env.useCache c (generate_cache_key p) k = none)
    (hkey : pyStartsWith env.apiKeyInput "sk-" = false) :
    (env.gemini p = .raised m →
      (call_ai_api env p k c).result = none ∧
      (call_ai_api env p k c).errMsg = some ("AI API Error: " ++ m)) ∧
    (env.gemini p = .resp none →
      (call_ai_api env p k c).result = none ∧
      (call_ai_api env p k c).errMsg = some ("AI API Error: " ++ env.noTextMsg)) ∧
    (∀ t : String, env.gemini p = .resp (some t) →
      (call_ai_api env p k c).result = some t) ∧
    (some "" ≠ (none : Option String)) := by
  refine ⟨?_, ?_, ?_, by simp⟩
  · intro hg
    constructor <;> simp [call_ai_api, hmiss, hkey, hg]
  · intro hg
    constructor <;> simp [call_ai_api, hmiss, hkey, hg]
  · intro t hg
    simp [call_ai_api, hmiss, hkey, hg]

/-- C4 witness: the amended theorem applied to the concrete provider-error
environment. -/
theorem call_failure_reporting_witness :
    (call_ai_api envNetErr "q" "job_summary" []).result = none ∧
    (call_ai_api envNetErr "q" "job_summary" []).errMsg =
      some ("AI API Error: " ++ "503 Service Unavailable") :=
  (call_failure_reporting envNetErr "q" "job_summary" [] "503 Service Unavailable"
    (by decide) (by decide)).1 rfl

/-- C5: Graceful degradation with batch isolation.  When the page fetch for
a link at batch position `i` raises, `process_job_link` returns the
degraded record — title `Job {i+1}`, company `Unknown`, empty raw text —
without touching the cache, and the batch loop goes on to process the
remaining links exactly as it would have. -/
theorem fetch_failure_degrades (env : Env) (link e : String) (i : Nat)
    (c : Cache) (rest : List String)
    (hf : env.fetch link = .error e) :
    process_job_link env link i c =
      (some { display_name := "Job " ++ toString (i + 1) ++ " - Failed to Load Details",
              link := link, title := "Job " ++ toString (i + 1), company := "Unknown",
              location := "", raw_text := "" }, c) ∧
    processLinks env (link :: rest) i c =
      (degraded_record link i :: (processLinks env rest (i + 1) c).1,
       (processLinks env rest (i + 1) c).2) := by
  constructor
  · simp [process_job_link, hf, degraded_record]
  · simp [processLinks, process_job_link, hf]

/-- C5 witness: a concrete failing fetch inside a two-link batch. -/
theorem fetch_failure_degrades_witness :
    process_job_link envFetchFail "lnk" 0 [] =
      (some { display_name := "Job 1 - Failed to Load Details", link := "lnk",
              title := "Job 1", company := "Unknown", location := "",
              raw_text := "" }, []) ∧
    processLinks envFetchFail ["lnk", "lnk2"] 0 [] =
      (degraded_record "lnk" 0 :: (processLinks envFetchFail ["lnk2"] 1 []).1,
       (processLinks envFetchFail ["lnk2"] 1 []).2) :=
  fetch_failure_degrades envFetchFail "lnk" "404 Client Error" 0 [] ["lnk2"] rfl

/-- C10: `process_job_link` is total — a failing fetch is caught and
degraded — but a fetch success followed by an AI call that returns `None`
(or the empty string, which `if not ai_response` also treats as missing)
makes `process_job_link` return `None`, and the batch loop then omits the
job from the collected list while continuing with the rest. -/
theorem generation_failure_drops (env : Env) (link : String) (i : Nat) (c : Cache)
    (pageText e : String) (rest : List String) :
    (env.fetch link = .error e →
      process_job_link env link i c = (some (degraded_record link i), c)) ∧
    (env.fetch link = .ok pageText →
      (call_ai_api env (ai_summary_prompt pageText) "job_summary" c).result = none →
      process_job_link env link i c =
        (none, (call_ai_api env (ai_summary_prompt pageText) "job_summary" c).cache)) ∧
    ((process_job_link env link i c).1 = none →
      processLinks env (link :: rest) i c =
        ((processLinks env rest (i + 1) (process_job_link env link i c).2).1,
         (processLinks env rest (i + 1) (process_job_link env link i c).2).2)) := by
  refine ⟨?_, ?_, ?_⟩
  · intro hf
    simp [process_job_link, hf]
  · intro hf hai
    simp [process_job_link, hf, hai]
  · intro hnone
    simp [processLinks, hnone]

/-- C10 witness: with the fetch succeeding and the AI call failing, the job
link yields `None` and the batch result omits it. -/
theorem generation_failure_drops_witness :
    process_job_link envAIFail "lnk" 0 [] =
      (none,
       (call_ai_api envAIFail (ai_summary_prompt "some page text") "job_summary" []).cache) ∧
    processLinks envAIFail ["lnk"] 0 [] =
      ((processLinks envAIFail [] 1 (process_job_link envAIFail "lnk" 0 []).2).1,
       (processLinks envAIFail [] 1 (process_job_link envAIFail "lnk" 0 []).2).2) :=
  ⟨(generation_failure_drops envAIFail "lnk" 0 [] "some page text" "e" []).2.1 rfl (by decide),
   (generation_failure_drops envAIFail "lnk" 0 [] "some page text" "e" []).2.2 (by decide)⟩

lemma findJobId_digits (l ds : List Char) (h : findJobId l = some ds) :
    ds ≠ [] ∧ ∀ c ∈ ds, c.isDigit := by
  induction l with
  | nil => simp [findJobId] at h
  | cons c rest ih =>
      simp only [findJobId] at h
      split at h
      · split at h
        · exact ih h
        · rename_i hds
          cases h
          refine ⟨fun hnil => hds ?_, fun x hx => List.mem_takeWhile_imp hx⟩
          rw [hnil]
          rfl
      · exact ih h

lemma dedupAux_subset (seen l : List String) : ∀ x ∈ dedupAux seen l, x ∈ l := by
  induction l generalizing seen with
  | nil => simp [dedupAux]
  | cons a as ih =>
      intro x hx
      rw [dedupAux] at hx
      by_cases hmem : a ∈ seen
      · rw [if_pos hmem] at hx
        exact List.mem_cons_of_mem _ (ih seen x hx)
      · rw [if_neg hmem] at hx
        rcases List.mem_cons.mp hx with rfl | hx
        · exact List.mem_cons_self _ _
        · exact List.mem_cons_of_mem _ (ih _ x hx)

/-- C7: Link normalization.  The concrete anchor from the spec is rewritten
to its canonical form, and in general every link returned by
`extract_linkedin_jobs` is `https://www.linkedin.com/jobs/view/<digits>`
rebuilt from the nonempty numeric identifier found in the href. -/
theorem link_normalization :
    extract_linkedin_jobs ["https://www.linkedin.com/jobs/view/123456789/?query=1"] 10 =
      ["https://www.linkedin.com/jobs/view/123456789"] ∧
    ∀ (hrefs : List String) (maxJobs : Nat) (l : String),
      l ∈ extract_linkedin_jobs hrefs maxJobs →
      ∃ ds : List Char, ds ≠ [] ∧ (∀ c ∈ ds, c.isDigit) ∧
        l = "https://www.linkedin.com/jobs/view/" ++ String.mk ds := by
  constructor
  · decide
  · intro hrefs maxJobs l hl
    simp only [extract_linkedin_jobs] at hl
    have hl2 := dedupAux_subset _ _ l (List.take_subset _ _ hl)
    rcases List.mem_filterMap.mp hl2 with ⟨href, _, hf⟩
    split at hf
    · cases hjid : findJobId href.data with
      | none => rw [hjid] at hf; simp at hf
      | some ds =>
          rw [hjid] at hf
          rcases findJobId_digits _ _ hjid with ⟨hne, hdig⟩
          exact ⟨ds, hne, hdig, by simpa using hf.symm⟩
    · simp at hf

/-- C7 witness: the general normal-form statement applied to a concrete
extraction. -/
theorem link_normalization_witness :
    ∃ ds : List Char, ds ≠ [] ∧ (∀ c ∈ ds, c.isDigit) ∧
      "https://www.linkedin.com/jobs/view/42" =
        "https://www.linkedin.com/jobs/view/" ++ String.mk ds :=
  link_normalization.2 ["https://linkedin.com/jobs/view/42"] 5
    "https://www.linkedin.com/jobs/view/42" (by decide)

/-- C8: Field parsing tolerance.  The line scan matches exactly the lines
whose *lowercased* form starts with the field tag (so it is
case-insensitive), and every missing field falls back to its placeholder
default — `""` for location, the index-based `Job {i+1}` for the title and
`Unknown Company` for the company — without any error. -/
theorem field_parsing_tolerance :
    (∀ (lines : List String) (tag : String),
        findField lines tag = none ↔
          ∀ line ∈ lines, pyStartsWith (pyLower line) tag = false) ∧
    (∀ resp : String,
        (∀ line ∈ pySplitlines resp, pyStartsWith (pyLower line) "location:" = false) →
        parsed_location resp = "") ∧
    (∀ (resp : String) (i : Nat),
        (∀ line ∈ pySplitlines resp, pyStartsWith (pyLower line) "job title:" = false) →
        parsed_title resp i = "Job " ++ toString (i + 1)) ∧
    (∀ resp : String,
        (∀ line ∈ pySplitlines resp, pyStartsWith (pyLower line) "company:" = false) →
        parsed_company resp = "Unknown Company") := by
  have hchar : ∀ (lines : List String) (tag : String),
      findField lines tag = none ↔
        ∀ line ∈ lines, pyStartsWith (pyLower line) tag = false := by
    intro lines tag
    rw [findField, List.findSome?_eq_none_iff]
    constructor
    · intro h line hm
      have hl := h line hm
      by_cases hc : pyStartsWith (pyLower line) tag
      · rw [if_pos hc] at hl
        cases hl
      · simpa using hc
    · intro h line hm
      simp [h line hm]
  refine ⟨hchar, ?_, ?_, ?_⟩
  · intro resp h
    rw [parsed_location, (hchar _ _).mpr h]
    rfl
  · intro resp i h
    rw [parsed_title, (hchar _ _).mpr h]
    rfl
  · intro resp h
    rw [parsed_company, (hchar _ _).mpr h]
    rfl

/-- C8 witness: an AI reply lacking a `Location:` line parses to the empty
location. -/
theorem field_parsing_tolerance_witness :
    parsed_location "Job Title: X\nCompany: Y" = "" :=
  field_parsing_tolerance.2.1 "Job Title: X\nCompany: Y" (by decide)

lemma pyLowerChar_toNat (c : Char) :
    (pyLowerChar c).toNat =
      if 65 ≤ c.toNat ∧ c.toNat ≤ 90 then c.toNat + 32 else c.toNat := by
  rw [pyLowerChar]
  by_cases h : 65 ≤ c.toNat ∧ c.toNat ≤ 90
  · rw [dif_pos h, if_pos h]
    rfl
  · rw [dif_neg h, if_neg h]

/-- After replacing spaces and lowercasing, a character is neither a space
nor an ASCII uppercase letter. -/
lemma norm_char_ok (d : Char) :
    pyLowerChar (if d = ' ' then '_' else d) ≠ ' ' ∧
    ¬(65 ≤ (pyLowerChar (if d = ' ' then '_' else d)).toNat ∧
      (pyLowerChar (if d = ' ' then '_' else d)).toNat ≤ 90) := by
  set d' := if d = ' ' then '_' else d with hd'
  have hd'ne : d'.toNat ≠ 32 := by
    by_cases h : d = ' '
    · rw [hd', if_pos h]
      decide
    · rw [hd', if_neg h]
      intro hc
      exact h (Char.ext (UInt32.ext hc))
  have htn := pyLowerChar_toNat d'
  by_cases hu : 65 ≤ d'.toNat ∧ d'.toNat ≤ 90
  · rw [if_pos hu] at htn
    constructor
    · intro heq
      have h32 := congrArg Char.toNat heq
      rw [htn] at h32
      have hsp : (' ' : Char).toNat = 32 := rfl
      omega
    · rw [htn]
      omega
  · rw [if_neg hu] at htn
    constructor
    · intro heq
      have h32 := congrArg Char.toNat heq
      rw [htn] at h32
      exact hd'ne h32
    · rw [htn]
      exact hu

lemma normalized_chars (pre suf name : String)
    (hpre : ∀ c ∈ pre.data, c ≠ ' ' ∧ ¬(65 ≤ c.toNat ∧ c.toNat ≤ 90))
    (hsuf : ∀ c ∈ suf.data, c ≠ ' ' ∧ ¬(65 ≤ c.toNat ∧ c.toNat ≤ 90)) :
    ∀ c ∈ (pre ++ pyLower (pyReplaceSpace name) ++ suf).data,
      c ≠ ' ' ∧ ¬(65 ≤ c.toNat ∧ c.toNat ≤ 90) := by
  intro c hc
  rw [data_append, data_append] at hc
  rcases List.mem_append.mp hc with hc | hc
  · rcases List.mem_append.mp hc with hc | hc
    · exact hpre c hc
    · have hmid : (pyLower (pyReplaceSpace name)).data =
          (name.data.map fun d => if d = ' ' then '_' else d).map pyLowerChar := rfl
      rw [hmid] at hc
      rcases List.mem_map.mp hc with ⟨e, he, heq⟩
      rcases List.mem_map.mp he with ⟨d, _, hfd⟩
      rw [← heq, ← hfd]
      exact norm_char_ok d
  · exact hsuf c hc

/-- C9 counterexample: the history re-download filename embeds the stored
candidate name verbatim — `resume_Jane Doe.md` keeps the space and the
uppercase letters, and differs from the normalized form the claim
describes. -/
theorem history_filename_not_normalized_cex :
    history_resume_filename "Jane Doe" = "resume_Jane Doe.md" ∧
    ' ' ∈ (history_resume_filename "Jane Doe").data ∧
    'J' ∈ (history_resume_filename "Jane Doe").data ∧
    history_resume_filename "Jane Doe" ≠
      "resume_" ++ pyLower (pyReplaceSpace "Jane Doe") ++ ".md" := by
  refine ⟨by decide, by decide, by decide, by decide⟩

/-- C9 amended: the filenames of *freshly generated* downloads (resume
markdown, resume text, cold email) are derived from the candidate name or
company with spaces turned into underscores and the result lower-cased, so
they contain no space and no ASCII uppercase letter; the history
re-download filenames use the stored name verbatim instead. -/
theorem fresh_filenames_normalized :
    (∀ name : String, ∀ c ∈ (resume_filename_md name).data,
        c ≠ ' ' ∧ ¬(65 ≤ c.toNat ∧ c.toNat ≤ 90)) ∧
    (∀ name : String, ∀ c ∈ (resume_filename_txt name).data,
        c ≠ ' ' ∧ ¬(65 ≤ c.toNat ∧ c.toNat ≤ 90)) ∧
    (∀ company : String, ∀ c ∈ (email_filename company).data,
        c ≠ ' ' ∧ ¬(65 ≤ c.toNat ∧ c.toNat ≤ 90)) := by
  refine ⟨fun name => ?_, fun name => ?_, fun company => ?_⟩
  · exact normalized_chars "resume_" ".md" name (by decide) (by decide)
  · exact normalized_chars "resume_" ".txt" name (by decide) (by decide)
  · exact normalized_chars "cold_email_" ".txt" company (by decide) (by decide)

/-- C9 witness: the amended theorem applied to a concrete fresh filename
and character. -/
theorem fresh_filenames_normalized_witness :
    'j' ≠ ' ' ∧ ¬(65 ≤ 'j'.toNat ∧ 'j'.toNat ≤ 90) :=
  fresh_filenames_normalized.1 "Jane Doe" 'j' (by decide)

lemma string_data_inj {a b : String} (h : a.data = b.data) : a = b := by
  cases a
  cases b
  exact congrArg String.mk h

/-- Composite cache keys split uniquely when the hash parts have the fixed
digest length. -/
lemma key_append_inj (k1 k2 h1 h2 : String) (hl1 : h1.length = 32) (hl2 : h2.length = 32)
    (heq : k1 ++ "_" ++ h1 = k2 ++ "_" ++ h2) : k1 = k2 ∧ h1 = h2 := by
  have hd : k1.data ++ ('_' :: h1.data) = k2.data ++ ('_' :: h2.data) := by
    simpa [data_append] using congrArg String.data heq
  have hlen : ('_' :: h1.data).length = ('_' :: h2.data).length := by
    have e1 : h1.data.length = 32 := hl1
    have e2 : h2.data.length = 32 := hl2
    simp [e1, e2]
  rcases List.append_inj' hd hlen with ⟨hk, hh⟩
  have hh2 : h1.data = h2.data := by injection hh
  exact ⟨string_data_inj hk, string_data_inj hh2⟩

lemma lookup_cons_cases {a b : String} {e e' : CacheEntry} {c : Cache}
    (h : List.lookup a ((b, e) :: c) = some e') :
    (a = b ∧ e' = e) ∨ List.lookup a c = some e' := by
  rw [List.lookup] at h
  cases hab : a == b with
  | true =>
      rw [hab] at h
      exact Or.inl ⟨eq_of_beq hab, (Option.some.injEq _ _ ▸ h).symm⟩
  | false =>
      rw [hab] at h
      exact Or.inr h

/-- On a miss with caching enabled, the call returns the backend's reply
and stores it exactly when the reply is a text. -/
lemma call_miss (env : Env) (p k : String) (c : Cache)
    (hmiss : List.lookup (k ++ "_" ++ generate_cache_key p) c = none)
    (huc : env.useCache = true) :
    (call_ai_api env p k c).result = backendResult env p ∧
    (backendResult env p = none → (call_ai_api env p k c).cache = c) ∧
    (∀ t, backendResult env p = some t →
      (call_ai_api env p k c).cache =
        (k ++ "_" ++ generate_cache_key p, ⟨t, env.now⟩) :: c) := by
  have hget : get_cached_response true c (generate_cache_key p) k = none := by
    rw [get_cached_response]
    simpa using hmiss
  by_cases hsk : pyStartsWith env.apiKeyInput "sk-"
  · cases ho : env.openai env.aiModelChoice p with
    | raised m =>
        refine ⟨?_, ?_, ?_⟩ <;>
          simp [call_ai_api, huc, hget, backendResult, hsk, ho]
    | resp t' =>
        refine ⟨?_, ?_, ?_⟩ <;>
          simp [call_ai_api, huc, hget, backendResult, hsk, ho, set_cached_response]
  · cases hg : env.gemini p with
    | raised m =>
        refine ⟨?_, ?_, ?_⟩ <;>
          simp [call_ai_api, huc, hget, backendResult, hsk, hg]
    | resp t? =>
        cases t? with
        | none =>
            refine ⟨?_, ?_, ?_⟩ <;>
              simp [call_ai_api, huc, hget, backendResult, hsk, hg]
        | some t' =>
            refine ⟨?_, ?_, ?_⟩ <;>
              simp [call_ai_api, huc, hget, backendResult, hsk, hg, set_cached_response]

/-- With caching disabled the call is a pure backend call and leaves the
cache untouched. -/
lemma call_false (env : Env) (huc : env.useCache = false) (p k : String) (c : Cache) :
    (call_ai_api env p k c).result = backendResult env p ∧
    (call_ai_api env p k c).cache = c := by
  have hget : get_cached_response false c (generate_cache_key p) k = none := by
    rw [get_cached_response]
    simp
  by_cases hsk : pyStartsWith env.apiKeyInput "sk-"
  · cases ho : env.openai env.aiModelChoice p with
    | raised m =>
        constructor <;> simp [call_ai_api, huc, hget, backendResult, hsk, ho]
    | resp t' =>
        constructor <;>
          simp [call_ai_api, huc, hget, backendResult, hsk, ho, set_cached_response]
  · cases hg : env.gemini p with
    | raised m =>
        constructor <;> simp [call_ai_api, huc, hget, backendResult, hsk, hg]
    | resp t? =>
        cases t? with
        | none => constructor <;> simp [call_ai_api, huc, hget, backendResult, hsk, hg]
        | some t' =>
            constructor <;>
              simp [call_ai_api, huc, hget, backendResult, hsk, hg, set_cached_response]

lemma runCalls_false (env : Env) (huc : env.useCache = false) :
    ∀ (sub : List (String × String)) (c : Cache),
      (runCalls env sub c).1 = sub.map (fun pk => backendResult env pk.1) ∧
      (runCalls env sub c).2 = c := by
  intro sub
  induction sub with
  | nil => intro c; exact ⟨rfl, rfl⟩
  | cons pk rest ih =>
      obtain ⟨p, k⟩ := pk
      intro c
      have hc := call_false env huc p k c
      have hrec := ih ((call_ai_api env p k c).cache)
      constructor
      · show (call_ai_api env p k c).result ::
            (runCalls env rest (call_ai_api env p k c).cache).1 = _
        rw [hc.1, hrec.1]
        rfl
      · show (runCalls env rest (call_ai_api env p k c).cache).2 = c
        rw [hrec.2, hc.2]

lemma runCalls_true_sim (env : Env) (huc : env.useCache = true)
    (L : List (String × String))
    (hgood : ∀ p1 k1 p2 k2, (p1, k1) ∈ L → (p2, k2) ∈ L → k1 = k2 →
      p1 = p2 ∨ generate_cache_key p1 ≠ generate_cache_key p2) :
    ∀ (sub : List (String × String)) (c : Cache), (∀ x ∈ sub, x ∈ L) →
      CacheConsistent env L c →
      (runCalls env sub c).1 = sub.map (fun pk => backendResult env pk.1) ∧
      CacheConsistent env L (runCalls env sub c).2 := by
  intro sub
  induction sub with
  | nil => intro c _ hinv; exact ⟨rfl, hinv⟩
  | cons pk rest ih =>
      obtain ⟨p, k⟩ := pk
      intro c hsub hinv
      have hmem : (p, k) ∈ L := hsub _ (List.mem_cons_self _ _)
      have hsubr : ∀ x ∈ rest, x ∈ L := fun x hx => hsub x (List.mem_cons_of_mem _ hx)
      cases hlk : List.lookup (k ++ "_" ++ generate_cache_key p) c with
      | some e =>
          rcases hinv _ _ hlk with ⟨p', k', hmem', hfk, hbr⟩
          rcases key_append_inj k k' (generate_cache_key p) (generate_cache_key p')
            (cache_key_length _) (cache_key_length _) hfk with ⟨hk, hh⟩
          subst hk
          have hp : p' = p := by
            rcases hgood p' k p k hmem' hmem rfl with h | h
            · exact h
            · exact absurd hh.symm h
          rw [hp] at hbr
          have hget : get_cached_response true c (generate_cache_key p) k = some e := by
            rw [get_cached_response]
            simpa using hlk
          have hcall : call_ai_api env p k c = ⟨some e.resp, false, none, c⟩ := by
            simp [call_ai_api, huc, hget]
          have hrec := ih c hsubr hinv
          constructor
          · show (call_ai_api env p k c).result ::
                (runCalls env rest (call_ai_api env p k c).cache).1 = _
            rw [hcall]
            show some e.resp :: (runCalls env rest c).1 = _
            rw [hrec.1]
            simp [hbr.symm]
          · show CacheConsistent env L (runCalls env rest (call_ai_api env p k c).cache).2
            rw [hcall]
            exact hrec.2
      | none =>
          have hcm := call_miss env p k c hlk huc
          cases hbr : backendResult env p with
          | none =>
              have hcache : (call_ai_api env p k c).cache = c := hcm.2.1 hbr
              have hres : (call_ai_api env p k c).result = none := by rw [hcm.1, hbr]
              have hrec := ih c hsubr hinv
              constructor
              · show (call_ai_api env p k c).result ::
                    (runCalls env rest (call_ai_api env p k c).cache).1 = _
                rw [hres, hcache, hrec.1]
                simp [hbr]
              · show CacheConsistent env L (runCalls env rest (call_ai_api env p k c).cache).2
                rw [hcache]
                exact hrec.2
          | some t =>
              have hcache := hcm.2.2 t hbr
              have hres : (call_ai_api env p k c).result = some t := by rw [hcm.1, hbr]
              have hinv' : CacheConsistent env L
                  ((k ++ "_" ++ generate_cache_key p, ⟨t, env.now⟩) :: c) := by
                intro fk e hl
                rcases lookup_cons_cases hl with ⟨hfk, he⟩ | hl'
                · exact ⟨p, k, hmem, hfk, by rw [hbr, he]⟩
                · exact hinv _ _ hl'
              have hrec := ih _ hsubr hinv'
              constructor
              · show (call_ai_api env p k c).result ::
                    (runCalls env rest (call_ai_api env p k c).cache).1 = _
                rw [hres, hcache, hrec.1]
                simp [hbr]
              · show CacheConsistent env L (runCalls env rest (call_ai_api env p k c).cache).2
                rw [hcache]
                exact hrec.2

lemma env_set_false_eq (env : Env) (h : env.useCache = false) :
    ({ env with useCache := false } : Env) = env := by
  cases env
  simp only at h
  rw [h]

/-- C6 counterexample: with a deterministic backend, enabling the cache
*can* change the returned texts.  The two distinct prompts `collA`/`collB`
share an MD5 key, so with caching on the second call under the same kind
returns the first prompt's cached text "A" instead of its own backend
reply "B". -/
theorem cache_not_advisory_cex :
    (runCalls envColl [(collA, "job_summary"), (collB, "job_summary")] []).1 ≠
      (runCalls { envColl with useCache := false }
        [(collA, "job_summary"), (collB, "job_summary")] []).1 := by
  decide

/-- C6 amended: with a deterministic backend, caching is behaviourally
invisible *provided no two distinct prompts of the run collide on their
cache key under the same call kind*: the returned texts match the
cache-disabled run call by call; and with caching disabled the cache is
never read (`get` is constantly `None`), never written (`set` is the
identity), and the run ends with the cache it started with. -/
theorem cache_advisory (env : Env) (calls : List (String × String))
    (hgood : ∀ p1 k1 p2 k2, (p1, k1) ∈ calls → (p2, k2) ∈ calls → k1 = k2 →
      p1 = p2 ∨ generate_cache_key p1 ≠ generate_cache_key p2) :
    (runCalls env calls []).1 =
      (runCalls { env with useCache := false } calls []).1 ∧
    (∀ (c : Cache) (ck ct : String), get_cached_response false c ck ct = none) ∧
    (∀ (c : Cache) (ck r ct n : String), set_cached_response false c ck r ct n = c) ∧
    (runCalls { env with useCache := false } calls []).2 = [] := by
  have hF : ({ env with useCache := false } : Env).useCache = false := rfl
  have hfalse := runCalls_false { env with useCache := false } hF calls []
  refine ⟨?_, fun c ck ct => by simp [get_cached_response],
    fun c ck r ct n => by simp [set_cached_response], hfalse.2⟩
  by_cases huc : env.useCache = true
  · have hempty : CacheConsistent env calls [] := by
      intro fk e h
      simp [List.lookup] at h
    have hsim := runCalls_true_sim env huc calls hgood calls [] (fun x hx => hx) hempty
    rw [hsim.1, hfalse.1]
    rfl
  · have huc' : env.useCache = false := by
      cases h2 : env.useCache
      · rfl
      · exact absurd h2 huc
    rw [env_set_false_eq env huc']

/-- C6 witness: a concrete collision-free run — the same prompt asked twice
— returns the same texts with and without caching. -/
theorem cache_advisory_witness :
    (runCalls envColl [("a", "job_summary"), ("a", "job_summary")] []).1 =
      (runCalls { envColl with useCache := false }
        [("a", "job_summary"), ("a", "job_summary")] []).1 ∧
    (∀ (c : Cache) (ck ct : String), get_cached_response false c ck ct = none) ∧
    (∀ (c : Cache) (ck r ct n : String), set_cached_response false c ck r ct n = c) ∧
    (runCalls { envColl with useCache := false }
      [("a", "job_summary"), ("a", "job_summary")] []).2 = [] :=
  cache_advisory envColl [("a", "job_summary"), ("a", "job_summary")]
    (by
      intro p1 k1 p2 k2 h1 h2 _
      simp at h1 h2
      left
      rw [h1.1, h2.1])

/-- C2 witness: a concrete store under `job_summary` is invisible to a
concrete lookup under `resume_generation`. -/
theorem cache_kind_isolation_witness :
    get_cached_response true
        (set_cached_response true [] "k1" "v" "job_summary" "t0") "k1" "resume_generation" =
      get_cached_response true [] "k1" "resume_generation" :=
  cache_kind_isolation.1 true [] "k1" "v" "t0" "k1"

end Aibot
